import Mathlib

/-!
Verification of the ChatterBox Gradio demo (enhanced_gradio_app.py and
run_gradio_app.py) against its natural-language specification.

Shallow embedding conventions:
- Python strings are embedded as `List Char` (sequences of Unicode code
  points); Python `len` is `List.length`, Python string comparison is
  code-point lexicographic (`pyStrLe` / `pyStrLt` below), and Python
  `str.strip()` is `pyStrip` (standard whitespace characters; the demo only
  ever deals with these).
- Python floats carrying the synthesis-control values (exaggeration,
  cfg_weight, temperature) are embedded as exact rationals; every such value
  the program stores or moves is an exact short decimal, so nothing is lost.
  The textual rendering of a float in a status message is abstracted by
  `pyFloatRepr`; no verified claim depends on its exact digits.
- Side-effecting external collaborators (torch RNG seeding, model
  construction, model.generate, torchaudio.save, wall-clock timing,
  datetime.now, random.randint) enter as explicit oracle values; a Python
  exception raised by such a collaborator is an `Except.error` carrying the
  exception text.  The try/except blocks of the source are mirrored by
  matching on those `Except` values exactly where the source would observe
  the exception, so a value reaching the caller shows the exception was
  converted, never propagated.
- The filesystem directory `audio_history` is embedded as the list of file
  names it contains; `datetime.now().strftime("%Y%m%d_%H%M%S")` is the
  rendering `DateTime.strftime` of an oracle `DateTime` value.
-/

set_option maxRecDepth 16000

/-- Python strings as lists of code points. -/
abbrev PyStr := List Char

/-- Python `<=` on strings: code-point lexicographic comparison. -/
def pyStrLe : PyStr → PyStr → Bool
  | [], _ => true
  | _ :: _, [] => false
  | a :: as, b :: bs => if a < b then true else if b < a then false else pyStrLe as bs

/-- Python `<` on strings: strict code-point lexicographic comparison. -/
def pyStrLt : PyStr → PyStr → Bool
  | [], [] => false
  | [], _ :: _ => true
  | _ :: _, [] => false
  | a :: as, b :: bs => if a < b then true else if b < a then false else pyStrLt as bs

/-- Python `str.strip()` with no argument: drop whitespace from both ends. -/
def pyStrip (s : PyStr) : PyStr :=
  ((s.dropWhile Char.isWhitespace).reverse.dropWhile Char.isWhitespace).reverse

/-- The ordering `sorted(..., reverse=True)` arranges by: descending, each
element `>=` its successor under Python string comparison. -/
def strGe (a b : PyStr) : Prop := pyStrLe b a = true

instance : DecidableRel strGe := fun a b => instDecidableEqBool (pyStrLe b a) true

/- ----------------------------------------------------------------
   Timestamps.  save_audio_to_history names files with
   datetime.now().strftime("%Y%m%d_%H%M%S"); we embed the wall-clock
   instant as a record of numeric fields and the strftime call as its
   zero-padded fixed-width decimal rendering.
   ---------------------------------------------------------------- -/

structure DateTime where
  year : Nat
  month : Nat
  day : Nat
  hour : Nat
  minute : Nat
  second : Nat
deriving DecidableEq

/-- Two-digit zero-padded decimal rendering (strftime %m %d %H %M %S). -/
def pad2 (n : Nat) : PyStr :=
  [Nat.digitChar (n / 10 % 10), Nat.digitChar (n % 10)]

/-- Four-digit zero-padded decimal rendering (strftime %Y). -/
def pad4 (n : Nat) : PyStr :=
  [Nat.digitChar (n / 1000 % 10), Nat.digitChar (n / 100 % 10),
   Nat.digitChar (n / 10 % 10), Nat.digitChar (n % 10)]

/-- Embeds `datetime.strftime("%Y%m%d_%H%M%S")`. -/
def DateTime.strftime (t : DateTime) : PyStr :=
  pad4 t.year ++ (pad2 t.month ++ (pad2 t.day ++ ('_' ::
    (pad2 t.hour ++ (pad2 t.minute ++ pad2 t.second)))))

/-- Field bounds that every wall-clock instant satisfies and that make the
fixed-width rendering faithful. -/
def DateTime.Valid (t : DateTime) : Prop :=
  t.year < 10000 ∧ t.month < 100 ∧ t.day < 100 ∧ t.hour < 100 ∧
    t.minute < 100 ∧ t.second < 100

/-- Chronological order of two instants, at second resolution: strictly
earlier means at least one second earlier. -/
def DateTime.Earlier (t u : DateTime) : Prop :=
  t.year < u.year ∨ (t.year = u.year ∧ (t.month < u.month ∨ (t.month = u.month ∧
    (t.day < u.day ∨ (t.day = u.day ∧ (t.hour < u.hour ∨ (t.hour = u.hour ∧
      (t.minute < u.minute ∨ (t.minute = u.minute ∧ t.second < u.second)))))))))

instance (t u : DateTime) : Decidable (t.Earlier u) := by
  unfold DateTime.Earlier
  exact inferInstance

instance (t : DateTime) : Decidable t.Valid := by
  unfold DateTime.Valid
  exact inferInstance

/- ----------------------------------------------------------------
   enhanced_gradio_app.py, module-level configuration (lines 45-54)
   ---------------------------------------------------------------- -/

def MAX_TEXT_LENGTH : Nat := 500

def SAMPLE_RATE : Nat := 24000

/-- Abstract stand-in for the Python textual rendering of a float in a
status message (f-string format specifiers such as :.1f).  No verified
claim depends on its exact output. -/
def pyFloatRepr (q : ℚ) : PyStr := (toString q).data

/- ----------------------------------------------------------------
   set_seed (enhanced_gradio_app.py lines 56-65).
   random.randint(1, 1000000) is an oracle argument; the torch / numpy
   seeding calls are external side effects with no return value.
   ---------------------------------------------------------------- -/

/-- Embeds `set_seed`: seed 0 is replaced by the fresh
`random.randint(1, 1000000)` draw, any other seed is returned as is. -/
def set_seed (seed : Int) (randint_draw : Int) : Int :=
  if seed = 0 then randint_draw else seed

/- ----------------------------------------------------------------
   Preset table (enhanced_gradio_app.py lines 235-256)
   ---------------------------------------------------------------- -/

structure PresetConfig where
  exaggeration : ℚ
  cfg_weight : ℚ
  temperature : ℚ

/-- Embeds `get_preset_configs` (lines 235-244): the static preset table. -/
def get_preset_configs : List (PyStr × PresetConfig) :=
  [("Neutral".data, ⟨0.5, 0.5, 0.8⟩),
   ("Calm & Controlled".data, ⟨0.2, 0.7, 0.6⟩),
   ("Expressive & Dynamic".data, ⟨0.8, 0.3, 0.9⟩),
   ("Dramatic & Intense".data, ⟨1.2, 0.2, 1.0⟩),
   ("Robotic & Stable".data, ⟨0.1, 0.8, 0.5⟩),
   ("Creative & Varied".data, ⟨0.7, 0.4, 1.2⟩)]

/-- Embeds `apply_preset` (lines 246-256): "Custom" and unknown names fall
back to the defaults (0.5, 0.5, 0.8), names in the table return the stored
triple. -/
def apply_preset (preset : PyStr) : ℚ × ℚ × ℚ :=
  if preset = "Custom".data then (0.5, 0.5, 0.8)
  else
    match List.lookup preset get_preset_configs with
    | some config => (config.exaggeration, config.cfg_weight, config.temperature)
    | none => (0.5, 0.5, 0.8)

/-- Embeds lines 185-192 of generate_tts: when the preset is not "Custom"
and is present in the table, the three caller values are replaced by the
stored triple; otherwise the caller values stand. -/
def resolved_params (exaggeration cfg_weight temperature : ℚ) (preset : PyStr) :
    ℚ × ℚ × ℚ :=
  if preset ≠ "Custom".data then
    match List.lookup preset get_preset_configs with
    | some config => (config.exaggeration, config.cfg_weight, config.temperature)
    | none => (exaggeration, cfg_weight, temperature)
  else (exaggeration, cfg_weight, temperature)

/- ----------------------------------------------------------------
   Model session holders (enhanced_gradio_app.py lines 85-141).
   The globals tts_model / vc_model are threaded explicitly: each load
   function takes the value of its global before the call and returns the
   value after the call together with the (handle, status) pair the source
   returns.  ChatterboxTTS.from_pretrained / ChatterboxVC.from_pretrained
   are oracles: a constructed model or a raised exception.
   ---------------------------------------------------------------- -/

structure ChatterboxTTS where
  sr : Nat
  device : PyStr
deriving DecidableEq

structure ChatterboxVC where
  sr : Nat
  device : PyStr
deriving DecidableEq

def chatterbox_not_installed_msg : PyStr :=
  "❌ ChatterBox not installed. Please install with: pip install chatterbox-tts".data

/-- The error status built by the except-branch of load_tts_model. -/
def tts_load_failure_msg (e : PyStr) : PyStr :=
  "❌ Failed to load TTS model: ".data ++ e ++ "\n\n".data ++
  "🔧 Troubleshooting:\n".data ++
  "1. Ensure internet connection for model download\n".data ++
  "2. Check available disk space (~2GB needed)\n".data ++
  "3. Try restarting if memory issues occur".data

/-- The error status built by the except-branch of load_vc_model. -/
def vc_load_failure_msg (e : PyStr) : PyStr :=
  "❌ Failed to load VC model: ".data ++ e ++ "\n\n".data ++
  "🔧 Troubleshooting:\n".data ++
  "1. Ensure internet connection for model download\n".data ++
  "2. Check available disk space (~1GB needed)\n".data ++
  "3. Try restarting if memory issues occur".data

/-- Embeds `load_tts_model` (lines 85-112).  Result: (value of the global
tts_model after the call, (returned handle, returned status)). -/
def load_tts_model (chatterbox_available : Bool) (tts_model : Option ChatterboxTTS)
    (from_pretrained : Except PyStr ChatterboxTTS) (load_time : ℚ) :
    Option ChatterboxTTS × (Option ChatterboxTTS × PyStr) :=
  if ¬ chatterbox_available then
    (tts_model, (none, chatterbox_not_installed_msg))
  else
    match tts_model with
    | none =>
      match from_pretrained with
      | .ok m =>
        (some m, (some m,
          "✅ TTS Model loaded successfully in ".data ++ pyFloatRepr load_time ++
            "s\n".data ++
          "🎵 Sample rate: ".data ++ (Nat.repr m.sr).data ++ " Hz\n".data ++
          "🎯 Device: ".data ++ m.device))
      | .error e => (none, (none, tts_load_failure_msg e))
    | some m => (some m, (some m, "✅ TTS Model already loaded".data))

/-- Embeds `load_vc_model` (lines 114-141), same shape as load_tts_model. -/
def load_vc_model (chatterbox_available : Bool) (vc_model : Option ChatterboxVC)
    (from_pretrained : Except PyStr ChatterboxVC) (load_time : ℚ) :
    Option ChatterboxVC × (Option ChatterboxVC × PyStr) :=
  if ¬ chatterbox_available then
    (vc_model, (none, chatterbox_not_installed_msg))
  else
    match vc_model with
    | none =>
      match from_pretrained with
      | .ok m =>
        (some m, (some m,
          "✅ VC Model loaded successfully in ".data ++ pyFloatRepr load_time ++
            "s\n".data ++
          "🎵 Sample rate: ".data ++ (Nat.repr m.sr).data ++ " Hz\n".data ++
          "🎯 Device: ".data ++ m.device))
      | .error e => (none, (none, vc_load_failure_msg e))
    | some m => (some m, (some m, "✅ VC Model already loaded".data))

/- ----------------------------------------------------------------
   Audio history store (enhanced_gradio_app.py lines 143-160, 301-319).
   The directory is the list of file names it contains.
   ---------------------------------------------------------------- -/

/-- Glob pattern `*.wav` of get_audio_history / clear_audio_history.  (The
glob never matches a bare hidden file; the store only ever creates names of
the shape prefix_timestamp.wav, for which the suffix test is exact.) -/
def isWavFile (name : PyStr) : Bool := List.isSuffixOf (".wav".data) name

/-- Embeds `save_audio_to_history` (lines 143-160): builds the file name
prefix_timestamp.wav, writes it into the directory (overwriting a file of
the same name), and returns the path string.  Result: (returned path, the
directory contents after the write). -/
def save_audio_to_history (dir_files : List PyStr) (pre : PyStr) (now : DateTime) :
    PyStr × List PyStr :=
  let filename := pre ++ "_".data ++ now.strftime ++ ".wav".data
  ("audio_history/".data ++ filename,
   if filename ∈ dir_files then dir_files else dir_files ++ [filename])

/-- Embeds `get_audio_history` (lines 301-310): the path strings of all
*.wav files in the directory, sorted descending (`sorted(..., reverse=True)`;
Python uses a stable comparison sort, and on duplicate-free string keys any
comparison sort with the same comparator yields the same list). -/
def get_audio_history (dir_files : List PyStr) : List PyStr :=
  List.insertionSort strGe
    ((dir_files.filter isWavFile).map (fun name => "audio_history/".data ++ name))

/-- Directory contents after the unlink loop of clear_audio_history stops
having deleted the first `k` *.wav files (in directory iteration order). -/
def removeFirstWav : Nat → List PyStr → List PyStr
  | _, [] => []
  | 0, fs => fs
  | k + 1, f :: fs =>
    if isWavFile f then removeFirstWav k fs else f :: removeFirstWav (k + 1) fs

/-- Embeds `clear_audio_history` (lines 312-319): deletes every *.wav file;
a raised exception (oracle: after k successful deletes, with text e) is
caught and reported, leaving the remaining files in place.  Result:
(directory contents after the call, returned status). -/
def clear_audio_history (dir_files : List PyStr)
    (unlink_failure : Option (Nat × PyStr)) : List PyStr × PyStr :=
  match unlink_failure with
  | none =>
    (dir_files.filter (fun f => ! isWavFile f),
     "✅ Audio history cleared successfully".data)
  | some (k, e) =>
    (removeFirstWav k dir_files,
     "❌ Failed to clear history: ".data ++ e)

/- ----------------------------------------------------------------
   Generation request handler (enhanced_gradio_app.py lines 162-233 and
   258-299).
   ---------------------------------------------------------------- -/

/-- The tensor returned by model.generate, abstracted to its squeezed
sample count (the only attribute the demo reads). -/
structure Wav where
  samples : Nat
deriving DecidableEq

/-- The keyword arguments generate_tts passes to model.generate. -/
structure GenParams where
  exaggeration : ℚ
  cfg_weight : ℚ
  temperature : ℚ
  audio_prompt_path : Option PyStr

/-- The error status built by the except-branch of generate_tts. -/
def generation_failed_msg (e tb : PyStr) : PyStr :=
  "❌ Generation failed: ".data ++ e ++ "\n\n".data ++ "🔍 Debug info:\n".data ++ tb

/-- The success status built by generate_tts (lines 222-226). -/
def tts_success_status (duration generation_time rtf : ℚ) (actual_seed : Int)
    (history_path : PyStr) (p : ℚ × ℚ × ℚ) : PyStr :=
  "✅ Generated ".data ++ pyFloatRepr duration ++ "s audio in ".data ++
    pyFloatRepr generation_time ++ "s\n".data ++
  "📊 Real-time factor: ".data ++ pyFloatRepr rtf ++ "x\n".data ++
  "🎲 Seed used: ".data ++ (Int.repr actual_seed).data ++ "\n".data ++
  "💾 Saved to: ".data ++ history_path ++ "\n".data ++
  "🎛️ Settings: exag=".data ++ pyFloatRepr p.1 ++ ", cfg=".data ++
    pyFloatRepr p.2.1 ++ ", temp=".data ++ pyFloatRepr p.2.2

/-- The success status built by generate_vc (lines 291-292). -/
def vc_success_status (duration generation_time : ℚ) (history_path : PyStr) : PyStr :=
  "✅ Converted ".data ++ pyFloatRepr duration ++ "s audio in ".data ++
    pyFloatRepr generation_time ++ "s\n".data ++
  "💾 Saved to: ".data ++ history_path

/-- The error status built by the except-branch of generate_vc. -/
def vc_failed_msg (e tb : PyStr) : PyStr :=
  "❌ Voice conversion failed: ".data ++ e ++ "\n\n".data ++
    "🔍 Debug info:\n".data ++ tb

/-- Oracle values for one generate_tts call: the state of the global
tts_model, and the behavior of every external collaborator the call may
reach. -/
structure TTSOracle where
  chatterbox_available : Bool
  tts_model : Option ChatterboxTTS
  from_pretrained : Except PyStr ChatterboxTTS
  load_time : ℚ
  randint_draw : Int
  model_generate : Except PyStr Wav
  torchaudio_save : Except PyStr Unit
  now : DateTime
  generation_time : ℚ
  traceback_str : PyStr

/-- The observable outcome of one generate_tts call: the returned
(audio, status) pair, the state left behind, and ghost trace fields
recording whether the model session holder was invoked, which keyword
arguments reached model.generate, and which seed was used. -/
structure TTSResult where
  audio : Option (Nat × Wav)
  status : PyStr
  tts_model_after : Option ChatterboxTTS
  dir_files_after : List PyStr
  called_load : Bool
  called_generate : Option GenParams
  seed_used : Option Int

/-- Embeds `generate_tts` (lines 162-233).  The two validation checks come
before any contact with the model machinery; the try-block converts any
exception from model.generate or torchaudio.save into a (None, error
status) return. -/
def generate_tts (text : PyStr) (reference_audio : Option PyStr)
    (exaggeration cfg_weight temperature : ℚ) (seed : Int) (preset : PyStr)
    (dir_files : List PyStr) (o : TTSOracle) : TTSResult :=
  if pyStrip text = [] then
    { audio := none, status := "❌ Please enter some text to synthesize".data,
      tts_model_after := o.tts_model, dir_files_after := dir_files,
      called_load := false, called_generate := none, seed_used := none }
  else if text.length > MAX_TEXT_LENGTH then
    { audio := none,
      status := "❌ Text too long. Maximum ".data ++ (Nat.repr MAX_TEXT_LENGTH).data ++
        " characters allowed.".data,
      tts_model_after := o.tts_model, dir_files_after := dir_files,
      called_load := false, called_generate := none, seed_used := none }
  else
    match load_tts_model o.chatterbox_available o.tts_model o.from_pretrained o.load_time with
    | (state₁, (none, status)) =>
      { audio := none, status := status, tts_model_after := state₁,
        dir_files_after := dir_files, called_load := true,
        called_generate := none, seed_used := none }
    | (state₁, (some model, _loadStatus)) =>
      let p := resolved_params exaggeration cfg_weight temperature preset
      let actual_seed := set_seed seed o.randint_draw
      let generation_params : GenParams :=
        { exaggeration := p.1, cfg_weight := p.2.1, temperature := p.2.2,
          audio_prompt_path := reference_audio }
      match o.model_generate with
      | .error e =>
        { audio := none, status := generation_failed_msg e o.traceback_str,
          tts_model_after := state₁, dir_files_after := dir_files,
          called_load := true, called_generate := some generation_params,
          seed_used := some actual_seed }
      | .ok wav =>
        match o.torchaudio_save with
        | .error e =>
          { audio := none, status := generation_failed_msg e o.traceback_str,
            tts_model_after := state₁, dir_files_after := dir_files,
            called_load := true, called_generate := some generation_params,
            seed_used := some actual_seed }
        | .ok _ =>
          let sp := save_audio_to_history dir_files ("tts".data) o.now
          let duration : ℚ := (wav.samples : ℚ) / (model.sr : ℚ)
          let rtf : ℚ := o.generation_time / duration
          { audio := some (model.sr, wav),
            status := tts_success_status duration o.generation_time rtf actual_seed sp.1 p,
            tts_model_after := state₁, dir_files_after := sp.2,
            called_load := true, called_generate := some generation_params,
            seed_used := some actual_seed }

/-- Oracle values for one generate_vc call. -/
structure VCOracle where
  chatterbox_available : Bool
  vc_model : Option ChatterboxVC
  from_pretrained : Except PyStr ChatterboxVC
  load_time : ℚ
  model_generate : Except PyStr Wav
  torchaudio_save : Except PyStr Unit
  now : DateTime
  generation_time : ℚ
  traceback_str : PyStr

/-- The observable outcome of one generate_vc call. -/
structure VCResult where
  audio : Option (Nat × Wav)
  status : PyStr
  vc_model_after : Option ChatterboxVC
  dir_files_after : List PyStr
  called_load : Bool
  called_generate : Bool

/-- Embeds `generate_vc` (lines 258-299). -/
def generate_vc (input_audio target_voice_audio : Option PyStr)
    (dir_files : List PyStr) (o : VCOracle) : VCResult :=
  match input_audio with
  | none =>
    { audio := none,
      status := "❌ Please provide input audio for voice conversion".data,
      vc_model_after := o.vc_model, dir_files_after := dir_files,
      called_load := false, called_generate := false }
  | some _ =>
    match load_vc_model o.chatterbox_available o.vc_model o.from_pretrained o.load_time with
    | (state₁, (none, status)) =>
      { audio := none, status := status, vc_model_after := state₁,
        dir_files_after := dir_files, called_load := true, called_generate := false }
    | (state₁, (some model, _loadStatus)) =>
      match o.model_generate with
      | .error e =>
        { audio := none, status := vc_failed_msg e o.traceback_str,
          vc_model_after := state₁, dir_files_after := dir_files,
          called_load := true, called_generate := true }
      | .ok wav =>
        match o.torchaudio_save with
        | .error e =>
          { audio := none, status := vc_failed_msg e o.traceback_str,
            vc_model_after := state₁, dir_files_after := dir_files,
            called_load := true, called_generate := true }
        | .ok _ =>
          let sp := save_audio_to_history dir_files ("vc".data) o.now
          let duration : ℚ := (wav.samples : ℚ) / (model.sr : ℚ)
          { audio := some (model.sr, wav),
            status := vc_success_status duration o.generation_time sp.1,
            vc_model_after := state₁, dir_files_after := sp.2,
            called_load := true, called_generate := true }

/- ----------------------------------------------------------------
   CLI launcher (run_gradio_app.py lines 196-206) and the launch
   configuration of enhanced_gradio_app.main (lines 716-725).
   ---------------------------------------------------------------- -/

/-- The three environment variables the launcher writes for the app. -/
structure GradioEnv where
  gradio_server_name : Option PyStr
  gradio_server_port : Option PyStr
  gradio_share : Option PyStr

/-- Embeds run_gradio_app.main lines 196-202: the launcher exports
GRADIO_SERVER_NAME, GRADIO_SERVER_PORT and GRADIO_SHARE ("False" exactly
when --no-share was passed) before importing the app. -/
def launcher_env (host : PyStr) (port : Nat) (no_share : Bool) : GradioEnv :=
  { gradio_server_name := some host,
    gradio_server_port := some (Nat.repr port).data,
    gradio_share := some (if no_share then "False".data else "True".data) }

/-- The keyword arguments enhanced_gradio_app.main passes to
`demo.queue(...).launch(**launch_kwargs)`. -/
structure LaunchKwargs where
  server_name : PyStr
  server_port : Nat
  share : Bool
  show_error : Bool
  quiet : Bool

/-- Embeds enhanced_gradio_app.main lines 716-725: the launch keyword
arguments are hardcoded literals; the process environment prepared by the
launcher is never consulted, and `share` is the literal True. -/
def enhanced_app_launch_kwargs (_env : GradioEnv) : LaunchKwargs :=
  { server_name := "0.0.0.0".data,
    server_port := 7860,
    share := true,
    show_error := true,
    quiet := false }

/- ----------------------------------------------------------------
   Helper lemmas: the Python string order.
   ---------------------------------------------------------------- -/

theorem pyStrLe_total : ∀ a b : PyStr, pyStrLe a b = true ∨ pyStrLe b a = true := by
  intro a
  induction a with
  | nil => intro b; left; cases b <;> rfl
  | cons x as ih =>
    intro b
    cases b with
    | nil => right; rfl
    | cons y bs =>
      rcases lt_trichotomy x y with h | h | h
      · left; simp [pyStrLe, h]
      · subst h
        rcases ih bs with h₂ | h₂
        · left; simp [pyStrLe, lt_irrefl, h₂]
        · right; simp [pyStrLe, lt_irrefl, h₂]
      · right; simp [pyStrLe, h]

theorem pyStrLe_trans : ∀ a b c : PyStr,
    pyStrLe a b = true → pyStrLe b c = true → pyStrLe a c = true := by
  intro a
  induction a with
  | nil => intro b c _ _; cases c <;> rfl
  | cons x as ih =>
    intro b c h₁ h₂
    cases b with
    | nil => simp [pyStrLe] at h₁
    | cons y bs =>
      cases c with
      | nil => simp [pyStrLe] at h₂
      | cons z cs =>
        simp only [pyStrLe] at h₁ h₂ ⊢
        rcases lt_trichotomy x y with hxy | hxy | hxy
        · rcases lt_trichotomy y z with hyz | hyz | hyz
          · simp [lt_trans hxy hyz]
          · subst hyz; simp [hxy]
          · rw [if_neg (asymm hyz), if_pos hyz] at h₂; exact absurd h₂ (by simp)
        · subst hxy
          rcases lt_trichotomy x z with hxz | hxz | hxz
          · simp [hxz]
          · subst hxz
            rw [if_neg (lt_irrefl x), if_neg (lt_irrefl x)] at h₁ h₂ ⊢
            exact ih bs cs h₁ h₂
          · rw [if_neg (asymm hxz), if_pos hxz] at h₂; exact absurd h₂ (by simp)
        · rw [if_neg (asymm hxy), if_pos hxy] at h₁; exact absurd h₁ (by simp)

theorem pyStrLt_le_false : ∀ a b : PyStr,
    pyStrLt a b = true → pyStrLe b a = false := by
  intro a
  induction a with
  | nil =>
    intro b h
    cases b with
    | nil => simp [pyStrLt] at h
    | cons y bs => rfl
  | cons x as ih =>
    intro b h
    cases b with
    | nil => simp [pyStrLt] at h
    | cons y bs =>
      simp only [pyStrLt] at h
      simp only [pyStrLe]
      rcases lt_trichotomy x y with hxy | hxy | hxy
      · rw [if_neg (asymm hxy), if_pos hxy]
      · subst hxy
        rw [if_neg (lt_irrefl x), if_neg (lt_irrefl x)] at h ⊢
        exact ih bs h
      · rw [if_neg (asymm hxy), if_pos hxy] at h; exact absurd h (by simp)

theorem pyStrLe_refl : ∀ a : PyStr, pyStrLe a a = true := by
  intro a
  induction a with
  | nil => rfl
  | cons x as ih => simp [pyStrLe, lt_irrefl, ih]

theorem pyStrLt_append_same_pre : ∀ (p a b : PyStr),
    pyStrLt (p ++ a) (p ++ b) = pyStrLt a b := by
  intro p
  induction p with
  | nil => intro a b; rfl
  | cons c cs ih =>
    intro a b
    simp only [List.cons_append, pyStrLt, if_neg (lt_irrefl c)]
    exact ih a b

theorem pyStrLt_append_of_lt : ∀ (a b s₁ s₂ : PyStr), a.length = b.length →
    pyStrLt a b = true → pyStrLt (a ++ s₁) (b ++ s₂) = true := by
  intro a
  induction a with
  | nil =>
    intro b s₁ s₂ hlen h
    cases b with
    | nil => simp [pyStrLt] at h
    | cons y bs => simp at hlen
  | cons x as ih =>
    intro b s₁ s₂ hlen h
    cases b with
    | nil => simp at hlen
    | cons y bs =>
      simp only [List.length_cons, Nat.add_right_cancel_iff] at hlen
      simp only [pyStrLt] at h
      simp only [List.cons_append, pyStrLt]
      rcases lt_trichotomy x y with hxy | hxy | hxy
      · rw [if_pos hxy]
      · subst hxy
        rw [if_neg (lt_irrefl x), if_neg (lt_irrefl x)] at h ⊢
        exact ih bs s₁ s₂ hlen h
      · rw [if_neg (asymm hxy), if_pos hxy] at h; exact absurd h (by simp)

/- ----------------------------------------------------------------
   Helper lemmas: the fixed-width timestamp rendering is monotone.
   ---------------------------------------------------------------- -/

theorem pad2_mono : ∀ m, m < 100 → ∀ n, n < m → pyStrLt (pad2 n) (pad2 m) = true := by
  decide

theorem pad4_eq_append (n : Nat) : pad4 n = pad2 (n / 100) ++ pad2 (n % 100) := by
  have h₁ : n / 100 / 10 % 10 = n / 1000 % 10 := by omega
  have h₂ : n % 100 / 10 % 10 = n / 10 % 10 := by omega
  have h₃ : n % 100 % 10 = n % 10 := by omega
  simp [pad4, pad2, h₁, h₂, h₃]

theorem pad4_mono : ∀ m, m < 10000 → ∀ n, n < m →
    pyStrLt (pad4 n) (pad4 m) = true := by
  intro m hm n hnm
  rw [pad4_eq_append n, pad4_eq_append m]
  have hdivle : n / 100 ≤ m / 100 := Nat.div_le_div_right (Nat.le_of_lt hnm)
  rcases Nat.lt_or_ge (n / 100) (m / 100) with hdiv | hdiv
  · exact pyStrLt_append_of_lt _ _ _ _ rfl
      (pad2_mono (m / 100) (by omega) (n / 100) hdiv)
  · have hdeq : n / 100 = m / 100 := Nat.le_antisymm hdivle hdiv
    have hmod : n % 100 < m % 100 := by
      have h₁ := Nat.div_add_mod n 100
      have h₂ := Nat.div_add_mod m 100
      omega
    rw [hdeq, pyStrLt_append_same_pre]
    exact pad2_mono (m % 100) (Nat.mod_lt m (by decide)) (n % 100) hmod

theorem strftime_mono (t u : DateTime) (ht : t.Valid) (hu : u.Valid)
    (h : t.Earlier u) : pyStrLt t.strftime u.strftime = true := by
  obtain ⟨hty, htmo, htd, hth, htmi, hts⟩ := ht
  obtain ⟨huy, humo, hud, huh, humi, hus⟩ := hu
  unfold DateTime.strftime
  rcases h with h | ⟨hy, h⟩
  · exact pyStrLt_append_of_lt _ _ _ _ rfl (pad4_mono u.year huy t.year h)
  · rw [hy, pyStrLt_append_same_pre]
    rcases h with h | ⟨hmo, h⟩
    · exact pyStrLt_append_of_lt _ _ _ _ rfl (pad2_mono u.month humo t.month h)
    · rw [hmo, pyStrLt_append_same_pre]
      rcases h with h | ⟨hd, h⟩
      · exact pyStrLt_append_of_lt _ _ _ _ rfl (pad2_mono u.day hud t.day h)
      · rw [hd, pyStrLt_append_same_pre]
        have hcons : ∀ x y : PyStr, pyStrLt x y = true →
            pyStrLt ('_' :: x) ('_' :: y) = true := by
          intro x y hxy
          simpa only [pyStrLt, if_neg (lt_irrefl '_')] using hxy
        apply hcons
        rcases h with h | ⟨hh, h⟩
        · exact pyStrLt_append_of_lt _ _ _ _ rfl (pad2_mono u.hour huh t.hour h)
        · rw [hh, pyStrLt_append_same_pre]
          rcases h with h | ⟨hmi, h⟩
          · exact pyStrLt_append_of_lt _ _ _ _ rfl
              (pad2_mono u.minute humi t.minute h)
          · rw [hmi, pyStrLt_append_same_pre]
            exact pad2_mono u.second hus t.second h

/- ----------------------------------------------------------------
   Claim theorems
   ---------------------------------------------------------------- -/

/-- Claim C4: every name present in the preset table resolves to exactly the
three stored numeric values, and resolving "Custom" or any name absent from
the table returns (0.5, 0.5, 0.8) with no error path. -/
theorem claim_C4_preset_resolution :
    (∀ name c, (name, c) ∈ get_preset_configs →
      apply_preset name = (c.exaggeration, c.cfg_weight, c.temperature)) ∧
    apply_preset ("Custom".data) = (0.5, 0.5, 0.8) ∧
    (∀ name, List.lookup name get_preset_configs = none →
      apply_preset name = (0.5, 0.5, 0.8)) := by
  refine ⟨?_, rfl, ?_⟩
  · intro name c h
    fin_cases h <;> rfl
  · intro name h
    unfold apply_preset
    split
    · rfl
    · rw [h]

/-- Witness for C4 at concrete inputs: the preset "Dramatic & Intense"
resolves to its stored triple and the unknown name "Bogus" falls back to the
defaults. -/
theorem claim_C4_preset_resolution_witness :
    apply_preset ("Dramatic & Intense".data) = (1.2, 0.2, 1.0) ∧
    apply_preset ("Bogus".data) = (0.5, 0.5, 0.8) :=
  ⟨claim_C4_preset_resolution.1 ("Dramatic & Intense".data) ⟨1.2, 0.2, 1.0⟩
      (by simp [get_preset_configs]),
   claim_C4_preset_resolution.2.2 ("Bogus".data) rfl⟩

/-- Claim C6: seed resolution maps the literal seed 0 to the freshly drawn
pseudo-random value and returns every nonzero seed unchanged, so repeated
calls with the same nonzero seed resolve identically. -/
theorem claim_C6_seed_resolution :
    (∀ r : Int, set_seed 0 r = r) ∧
    (∀ s : Int, s ≠ 0 → ∀ r₁ r₂ : Int,
      set_seed s r₁ = s ∧ set_seed s r₁ = set_seed s r₂) := by
  constructor
  · intro r
    simp [set_seed]
  · intro s hs r₁ r₂
    simp [set_seed, hs]

/-- Witness for C6 at the concrete nonzero seed 42 with two different
pseudo-random draws. -/
theorem claim_C6_seed_resolution_witness :
    (42 : Int) ≠ 0 ∧ set_seed 42 7 = 42 ∧ set_seed 42 7 = set_seed 42 9 :=
  ⟨by decide,
   (claim_C6_seed_resolution.2 42 (by decide) 7 9).1,
   (claim_C6_seed_resolution.2 42 (by decide) 7 9).2⟩

/-- Claim C3: contrary to the launcher documentation, --no-share does not
disable the public URL: the launcher exports GRADIO_SHARE="False", but the
launched application hardcodes share=True in its launch keyword arguments
and never reads that environment variable, so a public URL is requested
either way. -/
theorem claim_C3_no_share_ineffective :
    (launcher_env ("0.0.0.0".data) 7860 true).gradio_share = some ("False".data) ∧
    (∀ env, (enhanced_app_launch_kwargs env).share = true) :=
  ⟨rfl, fun _ => rfl⟩

/- ----------------------------------------------------------------
   Helper lemmas: the audio history listing.
   ---------------------------------------------------------------- -/

theorem strftime_length (t : DateTime) : t.strftime.length = 15 := rfl

/-- If `fn` is a *.wav member of the directory and every file is `fn` or
strictly below it in Python string order, the listing starts with the path
of `fn`. -/
theorem get_audio_history_head_of_max (dir : List PyStr) (fn : PyStr)
    (hmem : fn ∈ dir) (hwav : isWavFile fn = true)
    (hmax : ∀ f ∈ dir, f = fn ∨ pyStrLt f fn = true) :
    (get_audio_history dir).head? = some ("audio_history/".data ++ fn) := by
  unfold get_audio_history
  have hperm := List.perm_insertionSort strGe
    ((dir.filter isWavFile).map (fun name => "audio_history/".data ++ name))
  have hsorted : (List.insertionSort strGe
      ((dir.filter isWavFile).map (fun name => "audio_history/".data ++ name))).Sorted strGe :=
    @List.sorted_insertionSort PyStr strGe _ ⟨fun a b => pyStrLe_total b a⟩
      ⟨fun a b c hab hbc => pyStrLe_trans c b a hbc hab⟩ _
  have hP : ("audio_history/".data ++ fn) ∈ List.insertionSort strGe
      ((dir.filter isWavFile).map (fun name => "audio_history/".data ++ name)) := by
    rw [hperm.mem_iff]
    exact List.mem_map_of_mem _ (List.mem_filter.mpr ⟨hmem, hwav⟩)
  have hall : ∀ q ∈ List.insertionSort strGe
      ((dir.filter isWavFile).map (fun name => "audio_history/".data ++ name)),
      q = "audio_history/".data ++ fn ∨
        pyStrLt q ("audio_history/".data ++ fn) = true := by
    intro q hq
    rw [hperm.mem_iff, List.mem_map] at hq
    obtain ⟨f, hf, rfl⟩ := hq
    rcases hmax f (List.mem_filter.mp hf).1 with h | h
    · left; rw [h]
    · right; rw [pyStrLt_append_same_pre]; exact h
  cases hL : List.insertionSort strGe
      ((dir.filter isWavFile).map (fun name => "audio_history/".data ++ name)) with
  | nil => rw [hL] at hP; cases hP
  | cons m rest =>
    rw [hL] at hP hall hsorted
    rw [List.head?_cons, Option.some_inj]
    rcases hall m (List.mem_cons_self m rest) with h | h
    · exact h
    · exfalso
      rcases List.mem_cons.mp hP with hPm | hPrest
      · rw [← hPm] at h
        have hfalse := pyStrLt_le_false _ _ h
        rw [pyStrLe_refl] at hfalse
        cases hfalse
      · have hge := (List.sorted_cons.mp hsorted).1 _ hPrest
        have := pyStrLt_le_false m ("audio_history/".data ++ fn) h
        rw [hge] at this
        cases this

/-- Claim C9: a successful clear (the unlink loop raises nothing) followed
by a listing returns the empty sequence, for every directory state. -/
theorem claim_C9_clear_then_list :
    ∀ dir_files : List PyStr,
      get_audio_history (clear_audio_history dir_files none).1 = [] := by
  intro dir_files
  unfold clear_audio_history get_audio_history
  rw [List.filter_filter]
  simp [List.insertionSort]

/-- Claim C1 fails as stated: with an existing "vc"-prefixed file bearing a
strictly earlier timestamp (a full day earlier, far more than one second),
a save with the "tts" prefix does not appear first in the listing, because
the descending filename sort is dominated by the prefix letters, not by the
timestamp. -/
theorem claim_C1_history_order_counterexample :
    DateTime.Earlier ⟨2025, 1, 1, 0, 0, 0⟩ ⟨2025, 1, 2, 0, 0, 0⟩ ∧
    "vc_20250101_000000.wav".data =
      "vc".data ++ "_".data ++ (DateTime.strftime ⟨2025, 1, 1, 0, 0, 0⟩) ++ ".wav".data ∧
    (get_audio_history
        (save_audio_to_history (["vc_20250101_000000.wav".data]) ("tts".data)
          ⟨2025, 1, 2, 0, 0, 0⟩).2).head? ≠
      some (save_audio_to_history (["vc_20250101_000000.wav".data]) ("tts".data)
          ⟨2025, 1, 2, 0, 0, 0⟩).1 :=
  ⟨by decide, by decide, by decide⟩

/-- Claim C1, amended: the listing returns the paths of all *.wav files in
the directory, sorted most-recent-first by filename (descending Python
string order); and a save followed by a list puts the newly saved file
first whenever every existing file carries the same prefix and a timestamp
at least one second earlier (strictly earlier at second resolution).  The
original claim, which promised this for timestamps differing by one second
regardless of prefix, is refuted by the counterexample. -/
theorem claim_C1_history_order :
    (∀ dir_files : List PyStr,
      (get_audio_history dir_files).Perm
        ((dir_files.filter isWavFile).map (fun name => "audio_history/".data ++ name)) ∧
      (get_audio_history dir_files).Sorted strGe) ∧
    (∀ (dir_files : List PyStr) (pre : PyStr) (now : DateTime),
      now.Valid →
      (∀ f ∈ dir_files, ∃ t : DateTime, t.Valid ∧ t.Earlier now ∧
        f = pre ++ "_".data ++ t.strftime ++ ".wav".data) →
      (get_audio_history (save_audio_to_history dir_files pre now).2).head? =
        some (save_audio_to_history dir_files pre now).1) := by
  constructor
  · intro dir_files
    refine ⟨List.perm_insertionSort strGe _, ?_⟩
    exact @List.sorted_insertionSort PyStr strGe _ ⟨fun a b => pyStrLe_total b a⟩
      ⟨fun a b c hab hbc => pyStrLe_trans c b a hbc hab⟩ _
  · intro dir_files pre now hvalid hfiles
    have hlt : ∀ f ∈ dir_files,
        pyStrLt f (pre ++ "_".data ++ now.strftime ++ ".wav".data) = true := by
      intro f hf
      obtain ⟨t, hvt, het, hft⟩ := hfiles f hf
      rw [hft, List.append_assoc (pre ++ "_".data), List.append_assoc (pre ++ "_".data),
        pyStrLt_append_same_pre]
      exact pyStrLt_append_of_lt _ _ _ _
        (by rw [strftime_length, strftime_length])
        (strftime_mono t now hvt hvalid het)
    have hwav : isWavFile (pre ++ "_".data ++ now.strftime ++ ".wav".data) = true := by
      simp only [isWavFile, List.isSuffixOf_iff_suffix]
      exact List.suffix_append _ _
    have hmem : (pre ++ "_".data ++ now.strftime ++ ".wav".data) ∈
        (save_audio_to_history dir_files pre now).2 := by
      show (pre ++ "_".data ++ now.strftime ++ ".wav".data) ∈
        (if (pre ++ "_".data ++ now.strftime ++ ".wav".data) ∈ dir_files then dir_files
         else dir_files ++ [pre ++ "_".data ++ now.strftime ++ ".wav".data])
      by_cases hmem0 : (pre ++ "_".data ++ now.strftime ++ ".wav".data) ∈ dir_files
      · rw [if_pos hmem0]; exact hmem0
      · rw [if_neg hmem0]
        exact List.mem_append_right _ (List.mem_singleton.mpr rfl)
    have hmax : ∀ f ∈ (save_audio_to_history dir_files pre now).2,
        f = (pre ++ "_".data ++ now.strftime ++ ".wav".data) ∨
          pyStrLt f (pre ++ "_".data ++ now.strftime ++ ".wav".data) = true := by
      show ∀ f ∈ (if (pre ++ "_".data ++ now.strftime ++ ".wav".data) ∈ dir_files
          then dir_files
          else dir_files ++ [pre ++ "_".data ++ now.strftime ++ ".wav".data]),
        f = (pre ++ "_".data ++ now.strftime ++ ".wav".data) ∨
          pyStrLt f (pre ++ "_".data ++ now.strftime ++ ".wav".data) = true
      by_cases hmem0 : (pre ++ "_".data ++ now.strftime ++ ".wav".data) ∈ dir_files
      · rw [if_pos hmem0]
        intro f hf
        exact Or.inr (hlt f hf)
      · rw [if_neg hmem0]
        intro f hf
        rcases List.mem_append.mp hf with hf | hf
        · exact Or.inr (hlt f hf)
        · exact Or.inl (List.mem_singleton.mp hf)
    exact get_audio_history_head_of_max _ _ hmem hwav hmax

/-- Witness for the amended C1 at concrete inputs: a directory holding one
"tts"-prefixed file from the previous day, then a save with the same
prefix; the freshly saved path heads the listing. -/
theorem claim_C1_history_order_witness :
    (get_audio_history (save_audio_to_history (["tts_20250101_000000.wav".data])
        ("tts".data) ⟨2025, 1, 2, 0, 0, 0⟩).2).head? =
      some (save_audio_to_history (["tts_20250101_000000.wav".data]) ("tts".data)
        ⟨2025, 1, 2, 0, 0, 0⟩).1 :=
  claim_C1_history_order.2 _ _ _ (by decide)
    (by
      intro f hf
      rw [List.mem_singleton] at hf
      exact ⟨⟨2025, 1, 1, 0, 0, 0⟩, by decide, by decide, by rw [hf]; decide⟩)

/-- Claim C7: with the model library available, an already-loaded session
is returned as is with the "already loaded" status and the global left
unchanged; a construction exception is caught and converted into the
descriptive failure status while the global stays unset, so the next call
constructs again (and succeeds when construction then succeeds).  Both the
TTS and the VC holder behave this way. -/
theorem claim_C7_session_holder :
    (∀ (m : ChatterboxTTS) constr t, load_tts_model true (some m) constr t =
      (some m, (some m, "✅ TTS Model already loaded".data))) ∧
    (∀ e t, load_tts_model true none (.error e) t =
      (none, (none, tts_load_failure_msg e))) ∧
    (∀ e t t₂ (m : ChatterboxTTS),
      (load_tts_model true (load_tts_model true none (.error e) t).1 (.ok m) t₂).2.1 =
        some m) ∧
    (∀ (m : ChatterboxVC) constr t, load_vc_model true (some m) constr t =
      (some m, (some m, "✅ VC Model already loaded".data))) ∧
    (∀ e t, load_vc_model true none (.error e) t =
      (none, (none, vc_load_failure_msg e))) ∧
    (∀ e t t₂ (m : ChatterboxVC),
      (load_vc_model true (load_vc_model true none (.error e) t).1 (.ok m) t₂).2.1 =
        some m) :=
  ⟨fun _ _ _ => rfl, fun _ _ => rfl, fun _ _ _ _ => rfl, fun _ _ _ => rfl,
   fun _ _ => rfl, fun _ _ _ _ => rfl⟩

/- ----------------------------------------------------------------
   Helper lemmas: the five control-flow branches of generate_tts and the
   five of generate_vc, as rewrite equations.
   ---------------------------------------------------------------- -/

theorem generate_tts_empty_text {text : PyStr} {ra : Option PyStr} {ex cw tp : ℚ}
    {sd : Int} {ps : PyStr} {df : List PyStr} {o : TTSOracle}
    (h1 : pyStrip text = []) :
    generate_tts text ra ex cw tp sd ps df o =
      { audio := none, status := "❌ Please enter some text to synthesize".data,
        tts_model_after := o.tts_model, dir_files_after := df,
        called_load := false, called_generate := none, seed_used := none } := by
  unfold generate_tts
  rw [if_pos h1]

theorem generate_tts_too_long {text : PyStr} {ra : Option PyStr} {ex cw tp : ℚ}
    {sd : Int} {ps : PyStr} {df : List PyStr} {o : TTSOracle}
    (h1 : ¬ pyStrip text = []) (h2 : text.length > MAX_TEXT_LENGTH) :
    generate_tts text ra ex cw tp sd ps df o =
      { audio := none,
        status := "❌ Text too long. Maximum ".data ++ (Nat.repr MAX_TEXT_LENGTH).data ++
          " characters allowed.".data,
        tts_model_after := o.tts_model, dir_files_after := df,
        called_load := false, called_generate := none, seed_used := none } := by
  unfold generate_tts
  rw [if_neg h1, if_pos h2]

theorem generate_tts_load_failed {text : PyStr} {ra : Option PyStr} {ex cw tp : ℚ}
    {sd : Int} {ps : PyStr} {df : List PyStr} {o : TTSOracle}
    {s₁ : Option ChatterboxTTS} {st : PyStr}
    (h1 : ¬ pyStrip text = []) (h2 : ¬ text.length > MAX_TEXT_LENGTH)
    (hL : load_tts_model o.chatterbox_available o.tts_model o.from_pretrained o.load_time =
      (s₁, (none, st))) :
    generate_tts text ra ex cw tp sd ps df o =
      { audio := none, status := st, tts_model_after := s₁, dir_files_after := df,
        called_load := true, called_generate := none, seed_used := none } := by
  unfold generate_tts
  rw [if_neg h1, if_neg h2, hL]

theorem generate_tts_generate_error {text : PyStr} {ra : Option PyStr} {ex cw tp : ℚ}
    {sd : Int} {ps : PyStr} {df : List PyStr} {o : TTSOracle}
    {s₁ : Option ChatterboxTTS} {m : ChatterboxTTS} {st : PyStr} {e : PyStr}
    (h1 : ¬ pyStrip text = []) (h2 : ¬ text.length > MAX_TEXT_LENGTH)
    (hL : load_tts_model o.chatterbox_available o.tts_model o.from_pretrained o.load_time =
      (s₁, (some m, st)))
    (hG : o.model_generate = .error e) :
    generate_tts text ra ex cw tp sd ps df o =
      { audio := none, status := generation_failed_msg e o.traceback_str,
        tts_model_after := s₁, dir_files_after := df, called_load := true,
        called_generate := some
          { exaggeration := (resolved_params ex cw tp ps).1,
            cfg_weight := (resolved_params ex cw tp ps).2.1,
            temperature := (resolved_params ex cw tp ps).2.2,
            audio_prompt_path := ra },
        seed_used := some (set_seed sd o.randint_draw) } := by
  unfold generate_tts
  rw [if_neg h1, if_neg h2, hL, hG]

theorem generate_tts_save_error {text : PyStr} {ra : Option PyStr} {ex cw tp : ℚ}
    {sd : Int} {ps : PyStr} {df : List PyStr} {o : TTSOracle}
    {s₁ : Option ChatterboxTTS} {m : ChatterboxTTS} {st : PyStr} {wav : Wav} {e : PyStr}
    (h1 : ¬ pyStrip text = []) (h2 : ¬ text.length > MAX_TEXT_LENGTH)
    (hL : load_tts_model o.chatterbox_available o.tts_model o.from_pretrained o.load_time =
      (s₁, (some m, st)))
    (hG : o.model_generate = .ok wav) (hS : o.torchaudio_save = .error e) :
    generate_tts text ra ex cw tp sd ps df o =
      { audio := none, status := generation_failed_msg e o.traceback_str,
        tts_model_after := s₁, dir_files_after := df, called_load := true,
        called_generate := some
          { exaggeration := (resolved_params ex cw tp ps).1,
            cfg_weight := (resolved_params ex cw tp ps).2.1,
            temperature := (resolved_params ex cw tp ps).2.2,
            audio_prompt_path := ra },
        seed_used := some (set_seed sd o.randint_draw) } := by
  unfold generate_tts
  rw [if_neg h1, if_neg h2, hL, hG, hS]

theorem generate_tts_success {text : PyStr} {ra : Option PyStr} {ex cw tp : ℚ}
    {sd : Int} {ps : PyStr} {df : List PyStr} {o : TTSOracle}
    {s₁ : Option ChatterboxTTS} {m : ChatterboxTTS} {st : PyStr} {wav : Wav} {u : Unit}
    (h1 : ¬ pyStrip text = []) (h2 : ¬ text.length > MAX_TEXT_LENGTH)
    (hL : load_tts_model o.chatterbox_available o.tts_model o.from_pretrained o.load_time =
      (s₁, (some m, st)))
    (hG : o.model_generate = .ok wav) (hS : o.torchaudio_save = .ok u) :
    generate_tts text ra ex cw tp sd ps df o =
      { audio := some (m.sr, wav),
        status := tts_success_status ((wav.samples : ℚ) / (m.sr : ℚ)) o.generation_time
          (o.generation_time / ((wav.samples : ℚ) / (m.sr : ℚ)))
          (set_seed sd o.randint_draw)
          (save_audio_to_history df ("tts".data) o.now).1
          (resolved_params ex cw tp ps),
        tts_model_after := s₁,
        dir_files_after := (save_audio_to_history df ("tts".data) o.now).2,
        called_load := true,
        called_generate := some
          { exaggeration := (resolved_params ex cw tp ps).1,
            cfg_weight := (resolved_params ex cw tp ps).2.1,
            temperature := (resolved_params ex cw tp ps).2.2,
            audio_prompt_path := ra },
        seed_used := some (set_seed sd o.randint_draw) } := by
  unfold generate_tts
  rw [if_neg h1, if_neg h2, hL, hG, hS]

theorem generate_tts_called_load (text : PyStr) (ra : Option PyStr) (ex cw tp : ℚ)
    (sd : Int) (ps : PyStr) (df : List PyStr) (o : TTSOracle)
    (h1 : ¬ pyStrip text = []) (h2 : ¬ text.length > MAX_TEXT_LENGTH) :
    (generate_tts text ra ex cw tp sd ps df o).called_load = true := by
  rcases hL : load_tts_model o.chatterbox_available o.tts_model o.from_pretrained o.load_time
    with ⟨s₁, mo, st⟩
  cases mo with
  | none => rw [generate_tts_load_failed h1 h2 hL]
  | some m =>
    cases hG : o.model_generate with
    | error e => rw [generate_tts_generate_error h1 h2 hL hG]
    | ok wav =>
      cases hS : o.torchaudio_save with
      | error e => rw [generate_tts_save_error h1 h2 hL hG hS]
      | ok u => rw [generate_tts_success h1 h2 hL hG hS]

theorem generate_vc_no_input {tva : Option PyStr} {df : List PyStr} {o : VCOracle} :
    generate_vc none tva df o =
      { audio := none,
        status := "❌ Please provide input audio for voice conversion".data,
        vc_model_after := o.vc_model, dir_files_after := df,
        called_load := false, called_generate := false } := rfl

theorem generate_vc_load_failed {ia : PyStr} {tva : Option PyStr} {df : List PyStr}
    {o : VCOracle} {s₁ : Option ChatterboxVC} {st : PyStr}
    (hL : load_vc_model o.chatterbox_available o.vc_model o.from_pretrained o.load_time =
      (s₁, (none, st))) :
    generate_vc (some ia) tva df o =
      { audio := none, status := st, vc_model_after := s₁, dir_files_after := df,
        called_load := true, called_generate := false } := by
  unfold generate_vc
  rw [hL]

theorem generate_vc_generate_error {ia : PyStr} {tva : Option PyStr} {df : List PyStr}
    {o : VCOracle} {s₁ : Option ChatterboxVC} {m : ChatterboxVC} {st : PyStr} {e : PyStr}
    (hL : load_vc_model o.chatterbox_available o.vc_model o.from_pretrained o.load_time =
      (s₁, (some m, st)))
    (hG : o.model_generate = .error e) :
    generate_vc (some ia) tva df o =
      { audio := none, status := vc_failed_msg e o.traceback_str, vc_model_after := s₁,
        dir_files_after := df, called_load := true, called_generate := true } := by
  unfold generate_vc
  rw [hL, hG]

theorem generate_vc_save_error {ia : PyStr} {tva : Option PyStr} {df : List PyStr}
    {o : VCOracle} {s₁ : Option ChatterboxVC} {m : ChatterboxVC} {st : PyStr}
    {wav : Wav} {e : PyStr}
    (hL : load_vc_model o.chatterbox_available o.vc_model o.from_pretrained o.load_time =
      (s₁, (some m, st)))
    (hG : o.model_generate = .ok wav) (hS : o.torchaudio_save = .error e) :
    generate_vc (some ia) tva df o =
      { audio := none, status := vc_failed_msg e o.traceback_str, vc_model_after := s₁,
        dir_files_after := df, called_load := true, called_generate := true } := by
  unfold generate_vc
  rw [hL, hG, hS]

theorem generate_vc_success {ia : PyStr} {tva : Option PyStr} {df : List PyStr}
    {o : VCOracle} {s₁ : Option ChatterboxVC} {m : ChatterboxVC} {st : PyStr}
    {wav : Wav} {u : Unit}
    (hL : load_vc_model o.chatterbox_available o.vc_model o.from_pretrained o.load_time =
      (s₁, (some m, st)))
    (hG : o.model_generate = .ok wav) (hS : o.torchaudio_save = .ok u) :
    generate_vc (some ia) tva df o =
      { audio := some (m.sr, wav),
        status := vc_success_status ((wav.samples : ℚ) / (m.sr : ℚ)) o.generation_time
          (save_audio_to_history df ("vc".data) o.now).1,
        vc_model_after := s₁,
        dir_files_after := (save_audio_to_history df ("vc".data) o.now).2,
        called_load := true, called_generate := true } := by
  unfold generate_vc
  rw [hL, hG, hS]

/- ----------------------------------------------------------------
   Helper lemmas: failure statuses are nonempty text.
   ---------------------------------------------------------------- -/

theorem load_tts_model_status_ne_nil (avail : Bool) (s : Option ChatterboxTTS)
    (fp : Except PyStr ChatterboxTTS) (t : ℚ) :
    (load_tts_model avail s fp t).2.2 ≠ [] := by
  cases avail with
  | false => exact (by decide : chatterbox_not_installed_msg ≠ [])
  | true =>
    cases s with
    | some m => exact (by decide : ("✅ TTS Model already loaded".data : PyStr) ≠ [])
    | none =>
      cases fp with
      | error e =>
        show tts_load_failure_msg e ≠ []
        simp only [tts_load_failure_msg, List.append_assoc]
        exact List.append_ne_nil_of_left_ne_nil (by decide) _
      | ok m =>
        show ("✅ TTS Model loaded successfully in ".data ++ pyFloatRepr t ++
          "s\n".data ++ "🎵 Sample rate: ".data ++ (Nat.repr m.sr).data ++
          " Hz\n".data ++ "🎯 Device: ".data ++ m.device) ≠ []
        simp only [List.append_assoc]
        exact List.append_ne_nil_of_left_ne_nil (by decide) _

theorem load_vc_model_status_ne_nil (avail : Bool) (s : Option ChatterboxVC)
    (fp : Except PyStr ChatterboxVC) (t : ℚ) :
    (load_vc_model avail s fp t).2.2 ≠ [] := by
  cases avail with
  | false => exact (by decide : chatterbox_not_installed_msg ≠ [])
  | true =>
    cases s with
    | some m => exact (by decide : ("✅ VC Model already loaded".data : PyStr) ≠ [])
    | none =>
      cases fp with
      | error e =>
        show vc_load_failure_msg e ≠ []
        simp only [vc_load_failure_msg, List.append_assoc]
        exact List.append_ne_nil_of_left_ne_nil (by decide) _
      | ok m =>
        show ("✅ VC Model loaded successfully in ".data ++ pyFloatRepr t ++
          "s\n".data ++ "🎵 Sample rate: ".data ++ (Nat.repr m.sr).data ++
          " Hz\n".data ++ "🎯 Device: ".data ++ m.device) ≠ []
        simp only [List.append_assoc]
        exact List.append_ne_nil_of_left_ne_nil (by decide) _

theorem generation_failed_msg_ne_nil (e tb : PyStr) :
    generation_failed_msg e tb ≠ [] := by
  simp only [generation_failed_msg, List.append_assoc]
  exact List.append_ne_nil_of_left_ne_nil (by decide) _

theorem vc_failed_msg_ne_nil (e tb : PyStr) : vc_failed_msg e tb ≠ [] := by
  simp only [vc_failed_msg, List.append_assoc]
  exact List.append_ne_nil_of_left_ne_nil (by decide) _

/-- When a preset name is present in the table it is not "Custom", and the
parameter resolution of generate_tts replaces the caller values by the
stored triple. -/
theorem resolved_params_of_lookup {ps : PyStr} {config : PresetConfig}
    (ex cw tp : ℚ) (hc : List.lookup ps get_preset_configs = some config) :
    resolved_params ex cw tp ps =
      (config.exaggeration, config.cfg_weight, config.temperature) := by
  have hne : ps ≠ "Custom".data := by
    intro h
    rw [h] at hc
    exact Option.noConfusion (show (none : Option PresetConfig) = some config from hc)
  unfold resolved_params
  rw [if_pos hne, hc]

/-- Claim C5: generate_tts returns a failure (no audio) without any contact
with the model machinery — it neither requests a model session nor calls
model.generate — exactly when the text is empty or whitespace-only or
longer than MAX_TEXT_LENGTH (500); any validation-passing text reaches the
model session holder.  In particular a 500-character text passes validation
while a 501-character text is rejected with no audio and no model contact. -/
theorem claim_C5_text_validation :
    (∀ text ra ex cw tp sd ps df (o : TTSOracle),
      ((generate_tts text ra ex cw tp sd ps df o).audio = none ∧
       (generate_tts text ra ex cw tp sd ps df o).called_load = false ∧
       (generate_tts text ra ex cw tp sd ps df o).called_generate = none) ↔
      (pyStrip text = [] ∨ text.length > MAX_TEXT_LENGTH)) ∧
    (∀ ra ex cw tp sd ps df (o : TTSOracle),
      (generate_tts (List.replicate 500 'a') ra ex cw tp sd ps df o).called_load = true ∧
      (generate_tts (List.replicate 501 'a') ra ex cw tp sd ps df o).audio = none ∧
      (generate_tts (List.replicate 501 'a') ra ex cw tp sd ps df o).called_load = false) := by
  constructor
  · intro text ra ex cw tp sd ps df o
    by_cases h1 : pyStrip text = []
    · constructor
      · intro _
        exact Or.inl h1
      · intro _
        rw [generate_tts_empty_text h1]
        exact ⟨rfl, rfl, rfl⟩
    · by_cases h2 : text.length > MAX_TEXT_LENGTH
      · constructor
        · intro _
          exact Or.inr h2
        · intro _
          rw [generate_tts_too_long h1 h2]
          exact ⟨rfl, rfl, rfl⟩
      · constructor
        · intro hcontra
          have hcl := generate_tts_called_load text ra ex cw tp sd ps df o h1 h2
          rw [hcl] at hcontra
          exact absurd hcontra.2.1 (by decide)
        · intro hor
          rcases hor with h | h
          · exact absurd h h1
          · exact absurd h h2
  · intro ra ex cw tp sd ps df o
    refine ⟨generate_tts_called_load (List.replicate 500 'a') ra ex cw tp sd ps df o
      (by decide) (by decide), ?_, ?_⟩
    · rw [generate_tts_too_long (by decide) (by decide)]
    · rw [generate_tts_too_long (by decide) (by decide)]

/-- Claim C2 fails as stated for preset names that are neither "Custom" nor
present in the table: with preset "Mystery" the caller values (1.7, 0.3,
0.9) reach model.generate untouched, although the preset table resolution
of "Mystery" is the default triple (0.5, 0.5, 0.8) and 1.7 differs from
every table value. -/
theorem claim_C2_preset_override_counterexample :
    ("Mystery".data ≠ "Custom".data) ∧
    (generate_tts ("Hi".data) none 1.7 0.3 0.9 5 ("Mystery".data) []
        ⟨true, some ⟨24000, "cpu".data⟩, .ok ⟨24000, "cpu".data⟩, 1, 5,
          .ok ⟨24000⟩, .ok (), ⟨2025, 1, 1, 0, 0, 0⟩, 1, "tb".data⟩).called_generate =
      some ⟨1.7, 0.3, 0.9, none⟩ ∧
    apply_preset ("Mystery".data) = (0.5, 0.5, 0.8) ∧
    (1.7 : ℚ) ≠ 0.5 :=
  ⟨by decide, rfl, rfl, by norm_num⟩

/-- Claim C2, amended: for every generation request whose preset name is
present in the preset table (such names are never "Custom"), the three
caller values are overridden by the stored triple before model.generate is
invoked: whatever keyword arguments reach the model carry exactly the
preset values (and the reference audio).  A preset name absent from the
table — refuted case of the original claim — leaves the caller values
untouched. -/
theorem claim_C2_preset_override :
    ∀ text ra ex cw tp sd ps df (o : TTSOracle) config,
      List.lookup ps get_preset_configs = some config →
      ∀ p, (generate_tts text ra ex cw tp sd ps df o).called_generate = some p →
        p.exaggeration = config.exaggeration ∧ p.cfg_weight = config.cfg_weight ∧
        p.temperature = config.temperature ∧ p.audio_prompt_path = ra := by
  intro text ra ex cw tp sd ps df o config hc p hp
  by_cases h1 : pyStrip text = []
  · rw [generate_tts_empty_text h1] at hp
    exact Option.noConfusion (show (none : Option GenParams) = some p from hp)
  · by_cases h2 : text.length > MAX_TEXT_LENGTH
    · rw [generate_tts_too_long h1 h2] at hp
      exact Option.noConfusion (show (none : Option GenParams) = some p from hp)
    · rcases hL : load_tts_model o.chatterbox_available o.tts_model o.from_pretrained
        o.load_time with ⟨s₁, mo, st⟩
      cases mo with
      | none =>
        rw [generate_tts_load_failed h1 h2 hL] at hp
        exact Option.noConfusion (show (none : Option GenParams) = some p from hp)
      | some m =>
        have hr := resolved_params_of_lookup ex cw tp hc
        cases hG : o.model_generate with
        | error e =>
          rw [generate_tts_generate_error h1 h2 hL hG] at hp
          cases Option.some.inj hp
          rw [hr]
          exact ⟨rfl, rfl, rfl, rfl⟩
        | ok wav =>
          cases hS : o.torchaudio_save with
          | error e =>
            rw [generate_tts_save_error h1 h2 hL hG hS] at hp
            cases Option.some.inj hp
            rw [hr]
            exact ⟨rfl, rfl, rfl, rfl⟩
          | ok u =>
            rw [generate_tts_success h1 h2 hL hG hS] at hp
            cases Option.some.inj hp
            rw [hr]
            exact ⟨rfl, rfl, rfl, rfl⟩

/-- Witness for the amended C2 at concrete inputs: preset "Neutral" with
caller values (1.7, 0.3, 0.9) reaches the model with the stored Neutral
triple (0.5, 0.5, 0.8). -/
theorem claim_C2_preset_override_witness :
    (generate_tts ("Hi".data) none 1.7 0.3 0.9 5 ("Neutral".data) []
        ⟨true, some ⟨24000, "cpu".data⟩, .ok ⟨24000, "cpu".data⟩, 1, 5,
          .ok ⟨24000⟩, .ok (), ⟨2025, 1, 1, 0, 0, 0⟩, 1, "tb".data⟩).called_generate =
      some ⟨0.5, 0.5, 0.8, none⟩ ∧
    ((0.5 : ℚ) = 0.5 ∧ (0.5 : ℚ) = 0.5 ∧ (0.8 : ℚ) = 0.8 ∧
      (none : Option PyStr) = none) :=
  ⟨rfl,
   claim_C2_preset_override ("Hi".data) none 1.7 0.3 0.9 5 ("Neutral".data) []
     ⟨true, some ⟨24000, "cpu".data⟩, .ok ⟨24000, "cpu".data⟩, 1, 5,
       .ok ⟨24000⟩, .ok (), ⟨2025, 1, 1, 0, 0, 0⟩, 1, "tb".data⟩
     ⟨0.5, 0.5, 0.8⟩ rfl ⟨0.5, 0.5, 0.8, none⟩ rfl⟩

/-- Claim C8: neither generate_tts nor generate_vc lets a raised exception
reach the caller: for every input and every behavior of the external
collaborators — including raising arbitrary exceptions at any of the
embedded raise points — the call returns an (audio, status) pair in which
failure is an absent audio paired with a nonempty status text; and an
exception text raised by model.generate is converted into the
corresponding failure status of the call that invoked it. -/
theorem claim_C8_failures_as_status :
    (∀ text ra ex cw tp sd ps df (o : TTSOracle),
      ((∃ sr wav, (generate_tts text ra ex cw tp sd ps df o).audio = some (sr, wav)) ∨
        ((generate_tts text ra ex cw tp sd ps df o).audio = none ∧
         (generate_tts text ra ex cw tp sd ps df o).status ≠ [])) ∧
      (∀ e p, o.model_generate = .error e →
        (generate_tts text ra ex cw tp sd ps df o).called_generate = some p →
        (generate_tts text ra ex cw tp sd ps df o).audio = none ∧
        (generate_tts text ra ex cw tp sd ps df o).status =
          generation_failed_msg e o.traceback_str)) ∧
    (∀ ia tva df (o : VCOracle),
      ((∃ sr wav, (generate_vc ia tva df o).audio = some (sr, wav)) ∨
        ((generate_vc ia tva df o).audio = none ∧
         (generate_vc ia tva df o).status ≠ [])) ∧
      (∀ e, o.model_generate = .error e →
        (generate_vc ia tva df o).called_generate = true →
        (generate_vc ia tva df o).audio = none ∧
        (generate_vc ia tva df o).status = vc_failed_msg e o.traceback_str)) := by
  constructor
  · intro text ra ex cw tp sd ps df o
    constructor
    · by_cases h1 : pyStrip text = []
      · rw [generate_tts_empty_text h1]
        exact Or.inr ⟨rfl,
          (by decide : ("❌ Please enter some text to synthesize".data : PyStr) ≠ [])⟩
      · by_cases h2 : text.length > MAX_TEXT_LENGTH
        · rw [generate_tts_too_long h1 h2]
          exact Or.inr ⟨rfl,
            (by decide : ("❌ Text too long. Maximum ".data ++
              (Nat.repr MAX_TEXT_LENGTH).data ++ " characters allowed.".data : PyStr) ≠ [])⟩
        · rcases hL : load_tts_model o.chatterbox_available o.tts_model o.from_pretrained
            o.load_time with ⟨s₁, mo, st⟩
          cases mo with
          | none =>
            rw [generate_tts_load_failed h1 h2 hL]
            refine Or.inr ⟨rfl, ?_⟩
            have hne := load_tts_model_status_ne_nil o.chatterbox_available o.tts_model
              o.from_pretrained o.load_time
            rw [hL] at hne
            exact hne
          | some m =>
            cases hG : o.model_generate with
            | error e =>
              rw [generate_tts_generate_error h1 h2 hL hG]
              exact Or.inr ⟨rfl, generation_failed_msg_ne_nil e o.traceback_str⟩
            | ok wav =>
              cases hS : o.torchaudio_save with
              | error e =>
                rw [generate_tts_save_error h1 h2 hL hG hS]
                exact Or.inr ⟨rfl, generation_failed_msg_ne_nil e o.traceback_str⟩
              | ok u =>
                rw [generate_tts_success h1 h2 hL hG hS]
                exact Or.inl ⟨m.sr, wav, rfl⟩
    · intro e p hG hp
      by_cases h1 : pyStrip text = []
      · rw [generate_tts_empty_text h1] at hp
        exact Option.noConfusion (show (none : Option GenParams) = some p from hp)
      · by_cases h2 : text.length > MAX_TEXT_LENGTH
        · rw [generate_tts_too_long h1 h2] at hp
          exact Option.noConfusion (show (none : Option GenParams) = some p from hp)
        · rcases hL : load_tts_model o.chatterbox_available o.tts_model o.from_pretrained
            o.load_time with ⟨s₁, mo, st⟩
          cases mo with
          | none =>
            rw [generate_tts_load_failed h1 h2 hL] at hp
            exact Option.noConfusion (show (none : Option GenParams) = some p from hp)
          | some m =>
            rw [generate_tts_generate_error h1 h2 hL hG]
            exact ⟨rfl, rfl⟩
  · intro ia tva df o
    constructor
    · cases ia with
      | none =>
        rw [generate_vc_no_input]
        exact Or.inr ⟨rfl,
          (by decide : ("❌ Please provide input audio for voice conversion".data : PyStr) ≠ [])⟩
      | some a =>
        rcases hL : load_vc_model o.chatterbox_available o.vc_model o.from_pretrained
          o.load_time with ⟨s₁, mo, st⟩
        cases mo with
        | none =>
          rw [generate_vc_load_failed hL]
          refine Or.inr ⟨rfl, ?_⟩
          have hne := load_vc_model_status_ne_nil o.chatterbox_available o.vc_model
            o.from_pretrained o.load_time
          rw [hL] at hne
          exact hne
        | some m =>
          cases hG : o.model_generate with
          | error e =>
            rw [generate_vc_generate_error hL hG]
            exact Or.inr ⟨rfl, vc_failed_msg_ne_nil e o.traceback_str⟩
          | ok wav =>
            cases hS : o.torchaudio_save with
            | error e =>
              rw [generate_vc_save_error hL hG hS]
              exact Or.inr ⟨rfl, vc_failed_msg_ne_nil e o.traceback_str⟩
            | ok u =>
              rw [generate_vc_success hL hG hS]
              exact Or.inl ⟨m.sr, wav, rfl⟩
    · intro e hG hcg
      cases ia with
      | none =>
        rw [generate_vc_no_input] at hcg
        exact Bool.noConfusion (show false = true from hcg)
      | some a =>
        rcases hL : load_vc_model o.chatterbox_available o.vc_model o.from_pretrained
          o.load_time with ⟨s₁, mo, st⟩
        cases mo with
        | none =>
          rw [generate_vc_load_failed hL] at hcg
          exact Bool.noConfusion (show false = true from hcg)
        | some m =>
          rw [generate_vc_generate_error hL hG]
          exact ⟨rfl, rfl⟩

/-- Witness for C8 at a concrete exception: model.generate raising "boom"
with traceback "tb" yields no audio and the generation-failed status
carrying both texts. -/
theorem claim_C8_failures_as_status_witness :
    (generate_tts ("Hi".data) none 0.5 0.5 0.8 5 ("Custom".data) []
        ⟨true, some ⟨24000, "cpu".data⟩, .ok ⟨24000, "cpu".data⟩, 1, 5,
          .error ("boom".data), .ok (), ⟨2025, 1, 1, 0, 0, 0⟩, 1,
          "tb".data⟩).audio = none ∧
    (generate_tts ("Hi".data) none 0.5 0.5 0.8 5 ("Custom".data) []
        ⟨true, some ⟨24000, "cpu".data⟩, .ok ⟨24000, "cpu".data⟩, 1, 5,
          .error ("boom".data), .ok (), ⟨2025, 1, 1, 0, 0, 0⟩, 1,
          "tb".data⟩).status = generation_failed_msg ("boom".data) ("tb".data) :=
  (claim_C8_failures_as_status.1 ("Hi".data) none 0.5 0.5 0.8 5 ("Custom".data) []
      ⟨true, some ⟨24000, "cpu".data⟩, .ok ⟨24000, "cpu".data⟩, 1, 5,
        .error ("boom".data), .ok (), ⟨2025, 1, 1, 0, 0, 0⟩, 1, "tb".data⟩).2
    ("boom".data) ⟨0.5, 0.5, 0.8, none⟩ rfl rfl

/-- Claim C10: seed resolution never yields 0: with the randint draw in its
documented range [1, 1000000], set_seed maps 0 to a value in that range and
any other seed to itself, so the resolved value is never 0; hence the seed
recorded by every successful generation (the value interpolated into the
status text) is a nonzero integer. -/
theorem claim_C10_seed_nonzero :
    (∀ seed r : Int, 1 ≤ r → r ≤ 1000000 →
      set_seed seed r ≠ 0 ∧
      (seed = 0 → 1 ≤ set_seed seed r ∧ set_seed seed r ≤ 1000000)) ∧
    (∀ text ra ex cw tp sd ps df (o : TTSOracle),
      1 ≤ o.randint_draw → o.randint_draw ≤ 1000000 →
      ∀ sr wav, (generate_tts text ra ex cw tp sd ps df o).audio = some (sr, wav) →
        (generate_tts text ra ex cw tp sd ps df o).seed_used =
          some (set_seed sd o.randint_draw) ∧
        set_seed sd o.randint_draw ≠ 0) := by
  have hmain : ∀ seed r : Int, 1 ≤ r → r ≤ 1000000 →
      set_seed seed r ≠ 0 ∧
      (seed = 0 → 1 ≤ set_seed seed r ∧ set_seed seed r ≤ 1000000) := by
    intro seed r hr₁ hr₂
    unfold set_seed
    by_cases hs : seed = 0
    · rw [if_pos hs]
      exact ⟨by omega, fun _ => ⟨hr₁, hr₂⟩⟩
    · rw [if_neg hs]
      exact ⟨hs, fun h => absurd h hs⟩
  refine ⟨hmain, ?_⟩
  intro text ra ex cw tp sd ps df o hr₁ hr₂ sr wav haudio
  by_cases h1 : pyStrip text = []
  · rw [generate_tts_empty_text h1] at haudio
    exact Option.noConfusion (show (none : Option (Nat × Wav)) = some (sr, wav) from haudio)
  · by_cases h2 : text.length > MAX_TEXT_LENGTH
    · rw [generate_tts_too_long h1 h2] at haudio
      exact Option.noConfusion
        (show (none : Option (Nat × Wav)) = some (sr, wav) from haudio)
    · rcases hL : load_tts_model o.chatterbox_available o.tts_model o.from_pretrained
        o.load_time with ⟨s₁, mo, st⟩
      cases mo with
      | none =>
        rw [generate_tts_load_failed h1 h2 hL] at haudio
        exact Option.noConfusion
          (show (none : Option (Nat × Wav)) = some (sr, wav) from haudio)
      | some m =>
        cases hG : o.model_generate with
        | error e =>
          rw [generate_tts_generate_error h1 h2 hL hG] at haudio
          exact Option.noConfusion
            (show (none : Option (Nat × Wav)) = some (sr, wav) from haudio)
        | ok w =>
          cases hS : o.torchaudio_save with
          | error e =>
            rw [generate_tts_save_error h1 h2 hL hG hS] at haudio
            exact Option.noConfusion
              (show (none : Option (Nat × Wav)) = some (sr, wav) from haudio)
          | ok u =>
            rw [generate_tts_success h1 h2 hL hG hS]
            exact ⟨rfl, (hmain sd o.randint_draw hr₁ hr₂).1⟩

/-- Witness for C10 at a concrete successful run with seed 0 and randint
draw 5: the recorded seed is set_seed 0 5 and it is nonzero. -/
theorem claim_C10_seed_nonzero_witness :
    (generate_tts ("Hi".data) none 0.5 0.5 0.8 0 ("Custom".data) []
        ⟨true, some ⟨24000, "cpu".data⟩, .ok ⟨24000, "cpu".data⟩, 1, 5,
          .ok ⟨24000⟩, .ok (), ⟨2025, 1, 1, 0, 0, 0⟩, 1, "tb".data⟩).seed_used =
      some (set_seed 0 5) ∧ set_seed 0 5 ≠ 0 :=
  claim_C10_seed_nonzero.2 ("Hi".data) none 0.5 0.5 0.8 0 ("Custom".data) []
    ⟨true, some ⟨24000, "cpu".data⟩, .ok ⟨24000, "cpu".data⟩, 1, 5,
      .ok ⟨24000⟩, .ok (), ⟨2025, 1, 1, 0, 0, 0⟩, 1, "tb".data⟩
    (by decide) (by decide) 24000 ⟨24000⟩ rfl
